import Mathlib

/-!
Verification development for the SYMBI-SYNERGY trust receipt subsystem.

The definitions below are a shallow embedding of the receipt builder
(`backend/services/receipt.service.js`) and the receipt verifier
(`backend/controllers/receiptVerifier.controller.js`).  JavaScript objects
whose fields may be absent, `null`, or an empty string are modelled with
`Option String`, together with the JS truthiness and coercion helpers
`truthy`, `jsOr`, `jsOrNull` and `jsConcatStr`.  Code that throws is
modelled with `Except String`.
-/

/-- JS truthiness of a string-or-null value: `null`, `undefined` and the
empty string are falsy. -/
def truthy : Option String → Bool
  | none => false
  | some s => s != ""

/-- JS `x || d` for a string-or-null `x` and a string default `d`. -/
def jsOr (x : Option String) (d : String) : String :=
  match x with
  | some s => if s != "" then s else d
  | none => d

/-- JS `x || null` for a string-or-null value. -/
def jsOrNull (x : Option String) : Option String :=
  if truthy x then x else none

/-- JS string coercion applied when a possibly-`null` value is used in
string concatenation: `null + s` evaluates to `"null" + s`. -/
def jsConcatStr : Option String → String
  | none => "null"
  | some s => s

/-- Opaque stand-in for the serialized empty metadata object. -/
def emptyMeta : String := "\x7b\x7d"

/-- The fixed six-flag compliance block attached by
`createCanonicalPayload` in `receipt.service.js`. -/
def complianceBlock : List (String × Bool) :=
  [("consent_architecture", true), ("inspection_mandate", true),
   ("continuous_validation", true), ("ethical_override", false),
   ("right_to_disconnect", true), ("moral_recognition", true)]

/-- The canonical payload object built by `createCanonicalPayload`
(`receipt.service.js`).  `metadata` is kept as an opaque serialized
string. -/
structure CanonicalPayload where
  event_id : Option String
  session_id : Option String
  user_id : Option String
  model_vendor : Option String
  model_name : Option String
  timestamp : Option String
  prompt_length : Nat
  response_length : Nat
  prompt_hash : String
  response_hash : String
  metadata : String
  trust_version : String
  compliance : List (String × Bool)
deriving DecidableEq

/-- The canonical object built by the controller-side
`ledgerEntryToReceipt` (`receiptVerifier.controller.js`). -/
structure EventCanonical where
  event_id : Option String
  session_id : Option String
  user : Option String
  model_vendor : Option String
  model_name : Option String
  timestamp : Option String
  prompt : Option String
  response : Option String
  metadata : Option String
  analysis : Option String
  prev_hash : Option String
deriving DecidableEq

/-- Modelled from the spec: the repository module `backend/utils/hash.js`
(`sha256Hex`, `stableStringify`), the Node `crypto` primitives used by
`backend/utils/receiptKeys.js`, and the JS built-ins `JSON.parse`,
`Date` and the UUID regular expression are not part of the embedded
sources.  Following the spec (digest: a deterministic fixed-width one-way
hash of a string; canonical encoder: a deterministic serialization of a
structured payload; sign/verify: asymmetric primitives over the hex digest
string, which may fail on malformed input), they are collected here as an
abstract environment over which every theorem is stated.  `verifyCrypto`
returns `Except.error` when the underlying library throws, `signCrypto`
returns `none` when signing throws, and `envPubkey` models the
`RECEIPT_VERIFY_PUBKEY_B64U` environment variable. -/
structure Env where
  sha256Hex : String → String
  stableStringify : CanonicalPayload → String
  jsonParse : String → Option CanonicalPayload
  stableStringifyEv : EventCanonical → String
  verifyCrypto : String → String → String → Except String Bool
  signCrypto : String → String → Option String
  isValidDate : String → Bool
  isUuidFmt : String → Bool
  envPubkey : Option String

/-- A receipt object as produced and consumed by the JS code.  Every field
may be absent or `null`; `timestamp` only occurs on externally submitted
receipts. -/
structure Receipt where
  payload : Option String := none
  inputs_hash : Option String := none
  outputs_hash : Option String := none
  prev_hash : Option String := none
  entry_hash : Option String := none
  ed25519_pubkey : Option String := none
  ed25519_sig : Option String := none
  policy_id : Option String := none
  created_at : Option String := none
  timestamp : Option String := none
deriving DecidableEq

/-- The key state held by the receipt service (`receiptKeys`). -/
structure ReceiptKeys where
  privateKeyPem : Option String
  publicKeyBase64Url : Option String
deriving DecidableEq

/-- The `options` argument of `generateTrustReceipt` and
`generateBatchReceipts`. -/
structure ReceiptOptions where
  prev_hash : Option String := none
  policy_id : Option String := none
deriving DecidableEq

/-- The `interactionData` argument of `generateTrustReceipt`.  `metadata`
is kept as an opaque serialized string. -/
structure InteractionData where
  event_id : Option String := none
  session_id : Option String := none
  user_id : Option String := none
  prompt : Option String := none
  response : Option String := none
  metadata : Option String := none
  model_vendor : Option String := none
  model_name : Option String := none
  timestamp : Option String := none
deriving DecidableEq

/-- The argument record of `createCanonicalPayload`
(`receipt.service.js`). -/
structure PayloadInput where
  event_id : Option String
  session_id : Option String
  user_id : Option String
  prompt : String
  response : String
  metadata : Option String
  model_vendor : Option String
  model_name : Option String
  timestamp : Option String
deriving DecidableEq

/-- `createCanonicalPayload` from `receipt.service.js`: builds the
canonical payload object, including the derived prompt/response digests
and the fixed compliance block. -/
def createCanonicalPayload (env : Env) (d : PayloadInput) : CanonicalPayload :=
  { event_id := d.event_id
    session_id := d.session_id
    user_id := d.user_id
    model_vendor := d.model_vendor
    model_name := d.model_name
    timestamp := d.timestamp
    prompt_length := d.prompt.length
    response_length := d.response.length
    prompt_hash := env.sha256Hex d.prompt
    response_hash := env.sha256Hex d.response
    metadata := jsOr d.metadata emptyMeta
    trust_version := "1.0"
    compliance := complianceBlock }

/-- The canonical payload `generateTrustReceipt` constructs from its
interaction data, after applying the JS destructuring defaults
(`model_vendor = 'unknown'`, `metadata = \x7b\x7d`, `timestamp = new
Date().toISOString()`, the latter passed in as `now`). -/
def builderPayload (env : Env) (data : InteractionData) (now : String) : CanonicalPayload :=
  createCanonicalPayload env
    { event_id := data.event_id
      session_id := data.session_id
      user_id := data.user_id
      prompt := data.prompt.getD ""
      response := data.response.getD ""
      metadata := some (data.metadata.getD emptyMeta)
      model_vendor := some (data.model_vendor.getD "unknown")
      model_name := data.model_name
      timestamp := some (data.timestamp.getD now) }

/-- The receipt value built by `generateTrustReceipt` once validation has
passed: hashes, structure, and the conditional signing step (a signing
failure is caught and the receipt is returned unsigned). -/
def buildReceiptValue (env : Env) (keys : ReceiptKeys) (data : InteractionData)
    (options : ReceiptOptions) (now : String) : Receipt :=
  let payload := builderPayload env data now
  let inputsHash := env.sha256Hex (data.prompt.getD "")
  let outputsHash := env.sha256Hex (data.response.getD "")
  let payloadHash := env.sha256Hex (env.stableStringify payload)
  let receipt : Receipt :=
    { payload := some (env.stableStringify payload)
      inputs_hash := some inputsHash
      outputs_hash := some outputsHash
      prev_hash := jsOrNull options.prev_hash
      entry_hash := some payloadHash
      ed25519_pubkey := keys.publicKeyBase64Url
      ed25519_sig := none
      policy_id := some (jsOr options.policy_id "trust.receipt.v1")
      created_at := some (data.timestamp.getD now) }
  if truthy keys.privateKeyPem then
    match env.signCrypto payloadHash (keys.privateKeyPem.getD "") with
    | some sig => { receipt with ed25519_sig := some sig }
    | none => receipt
  else receipt

/-- `generateTrustReceipt` from `receipt.service.js`: fails when the
service is uninitialized or a required field is missing, otherwise
produces the receipt value. -/
def generateTrustReceipt (env : Env) (receiptKeys : Option ReceiptKeys)
    (interactionData : InteractionData) (options : ReceiptOptions) (now : String) :
    Except String Receipt :=
  match receiptKeys with
  | none => .error "Receipt service not initialized"
  | some keys =>
    if !(truthy interactionData.event_id && truthy interactionData.session_id &&
         truthy interactionData.prompt && truthy interactionData.response) then
      .error "Missing required fields: event_id, session_id, prompt, response"
    else
      .ok (buildReceiptValue env keys interactionData options now)

/-- The loop body of `generateBatchReceipts`: each interaction is built
with `prev_hash` overridden by the running hash, which is then advanced to
the new receipt's `entry_hash`. -/
def batchLoop (env : Env) (keys : Option ReceiptKeys) (ints : List InteractionData)
    (options : ReceiptOptions) (prevHash : Option String) (now : String) :
    Except String (List Receipt) :=
  match ints with
  | [] => .ok []
  | it :: rest =>
    match generateTrustReceipt env keys it { options with prev_hash := prevHash } now with
    | .error e => .error e
    | .ok r =>
      match batchLoop env keys rest options r.entry_hash now with
      | .error e => .error e
      | .ok rs => .ok (r :: rs)

/-- `generateBatchReceipts` from `receipt.service.js`. -/
def generateBatchReceipts (env : Env) (receiptKeys : Option ReceiptKeys)
    (interactions : List InteractionData) (options : ReceiptOptions) (now : String) :
    Except String (List Receipt) :=
  match receiptKeys with
  | none => .error "Receipt service not initialized"
  | some _ => batchLoop env receiptKeys interactions options (jsOrNull options.prev_hash) now

/-- One entry of the `checks` array of a verification result.  `expected`,
`actual` and `components` are only populated by mismatch checks. -/
structure Check where
  field : String
  status : String
  message : String
  expected : Option String := none
  actual : Option String := none
  components : Option (Option String × String × String) := none
deriving DecidableEq

/-- One entry of the `warnings` array of a verification result. -/
structure Warning where
  field : String
  message : String
deriving DecidableEq

/-- The verification result object assembled by
`verifyReceiptStructure`. -/
structure VerifyResult where
  valid : Bool
  checks : List Check
  warnings : List Warning
  receipt_type : Option String
deriving DecidableEq

/-- Append a check to a result. -/
def pushCheck (res : VerifyResult) (c : Check) : VerifyResult :=
  { res with checks := res.checks ++ [c] }

/-- Append a warning to a result. -/
def pushWarning (res : VerifyResult) (w : Warning) : VerifyResult :=
  { res with warnings := res.warnings ++ [w] }

/-- The required-fields loop shared by both verifiers: for each listed
field that is not truthy, mark the result invalid and push a `missing`
check. -/
def pushMissing (res : VerifyResult) (fields : List (String × Option String)) : VerifyResult :=
  fields.foldl (fun acc f =>
    if truthy f.2 then acc
    else { acc with
           valid := false
           checks := acc.checks ++ [{ field := f.1, status := "missing",
                                      message := "Required field missing: " ++ f.1 }] }) res

/-- The required fields of the signed shape, in source order. -/
def edRequiredFields (r : Receipt) : List (String × Option String) :=
  [("payload", r.payload), ("entry_hash", r.entry_hash),
   ("ed25519_sig", r.ed25519_sig), ("ed25519_pubkey", r.ed25519_pubkey)]

/-- The required fields of the hash-chain shape, in source order. -/
def chainRequiredFields (r : Receipt) : List (String × Option String) :=
  [("entry_hash", r.entry_hash), ("inputs_hash", r.inputs_hash),
   ("outputs_hash", r.outputs_hash)]

/-- The dispatch condition of the signed shape in
`verifyReceiptStructure`: `receipt.payload && receipt.ed25519_sig &&
receipt.ed25519_pubkey`. -/
def edShape (r : Receipt) : Bool :=
  truthy r.payload && truthy r.ed25519_sig && truthy r.ed25519_pubkey

/-- The dispatch condition of the hash-chain shape in
`verifyReceiptStructure`: `receipt.entry_hash && receipt.inputs_hash &&
receipt.outputs_hash`. -/
def chainShape (r : Receipt) : Bool :=
  truthy r.entry_hash && truthy r.inputs_hash && truthy r.outputs_hash

/-- `verifyEd25519Signature` from `receiptVerifier.controller.js`: wraps
the crypto primitive and rethrows its failure with a
`Signature verification failed` prefix. -/
def verifyEd25519Signature (env : Env) (messageHex sigB64 pubB64 : String) :
    Except String Bool :=
  match env.verifyCrypto messageHex sigB64 pubB64 with
  | .ok b => .ok b
  | .error e => .error ("Signature verification failed: " ++ e)

/-- `verifySignature` from `backend/utils/receiptKeys.js`: wraps the
crypto primitive and rethrows its failure with a
`Failed to verify signature` prefix. -/
def verifySignature (env : Env) (message sigB64 pubB64u : String) :
    Except String Bool :=
  match env.verifyCrypto message sigB64 pubB64u with
  | .ok b => .ok b
  | .error e => .error ("Failed to verify signature: " ++ e)

/-- `validatePayloadStructure` from `receiptVerifier.controller.js`:
warnings only. -/
def validatePayloadStructure (env : Env) (p : CanonicalPayload) (res : VerifyResult) :
    VerifyResult :=
  let res := if truthy p.event_id then res
    else pushWarning res { field := "payload", message := "Recommended field missing: event_id" }
  let res := if truthy p.session_id then res
    else pushWarning res { field := "payload", message := "Recommended field missing: session_id" }
  let res := if truthy p.timestamp then res
    else pushWarning res { field := "payload", message := "Recommended field missing: timestamp" }
  if truthy p.event_id && !env.isUuidFmt ((p.event_id).getD "") then
    pushWarning res { field := "payload", message := "event_id should be a UUID" }
  else res

/-- `validateCommonFields` from `receiptVerifier.controller.js`: warnings
only.  `policy_id` is typed as a string in this embedding, so the runtime
typeof check can never fire. -/
def validateCommonFields (env : Env) (r : Receipt) (res : VerifyResult) : VerifyResult :=
  if truthy r.timestamp && !env.isValidDate ((r.timestamp).getD "") then
    pushWarning res { field := "timestamp", message := "Invalid timestamp format" }
  else res

/-- `verifyEd25519Receipt` from `receiptVerifier.controller.js`. -/
def verifyEd25519Receipt (env : Env) (r : Receipt) (res : VerifyResult) : VerifyResult :=
  let res := pushMissing res (edRequiredFields r)
  if !res.valid then res
  else
    let payloadStr := (r.payload).getD ""
    match env.jsonParse payloadStr with
    | none =>
      { res with
        valid := false
        checks := res.checks ++ [{ field := "payload", status := "invalid",
                                   message := "Invalid JSON payload" }] }
    | some parsed =>
      let payloadHash := env.sha256Hex (env.stableStringify parsed)
      let entry := (r.entry_hash).getD ""
      let res :=
        if payloadHash != entry then
          { res with
            valid := false
            checks := res.checks ++ [{ field := "entry_hash", status := "mismatch",
                                       message := "Entry hash does not match payload hash",
                                       expected := some payloadHash, actual := some entry }] }
        else
          pushCheck res { field := "entry_hash", status := "valid",
                          message := "Entry hash matches payload" }
      let res :=
        match verifyEd25519Signature env entry ((r.ed25519_sig).getD "")
            ((r.ed25519_pubkey).getD "") with
        | .ok true =>
          pushCheck res { field := "ed25519_sig", status := "valid",
                          message := "Ed25519 signature verified" }
        | .ok false =>
          { res with
            valid := false
            checks := res.checks ++ [{ field := "ed25519_sig", status := "invalid",
                                       message := "Ed25519 signature verification failed" }] }
        | .error msg =>
          { res with
            valid := false
            checks := res.checks ++ [{ field := "ed25519_sig", status := "error",
                                       message := msg }] }
      match env.jsonParse payloadStr with
      | some p => validatePayloadStructure env p res
      | none => pushWarning res { field := "payload",
                                  message := "Could not validate payload structure" }

/-- `verifyHashChainReceipt` from `receiptVerifier.controller.js`:
recomputes `sha256Hex((prev_hash || '') + inputs_hash + outputs_hash)` and
compares it to the stored `entry_hash`. -/
def verifyHashChainReceipt (env : Env) (r : Receipt) (res : VerifyResult) : VerifyResult :=
  let res := pushMissing res (chainRequiredFields r)
  if !res.valid then res
  else
    let prevStr := jsOr r.prev_hash ""
    let inputs := (r.inputs_hash).getD ""
    let outputs := (r.outputs_hash).getD ""
    let entry := (r.entry_hash).getD ""
    let expectedHash := env.sha256Hex (prevStr ++ inputs ++ outputs)
    if expectedHash == entry then
      pushCheck res { field := "entry_hash", status := "valid",
                      message := "Hash chain verified" }
    else
      { res with
        valid := false
        checks := res.checks ++ [{ field := "entry_hash", status := "mismatch",
                                   message := "Entry hash does not match recomputed hash",
                                   expected := some expectedHash, actual := some entry,
                                   components := some (r.prev_hash, inputs, outputs) }] }

/-- `verifyReceiptStructure` from `receiptVerifier.controller.js`: shape
dispatch by field presence, then the shape verifier, then the common
field validation; neither shape present throws. -/
def verifyReceiptStructure (env : Env) (r : Receipt) : Except String VerifyResult :=
  let res0 : VerifyResult := { valid := true, checks := [], warnings := [], receipt_type := none }
  if edShape r then
    let res := verifyEd25519Receipt env r { res0 with receipt_type := some "ed25519_signed" }
    .ok (validateCommonFields env r res)
  else if chainShape r then
    let res := verifyHashChainReceipt env r { res0 with receipt_type := some "hash_chain" }
    .ok (validateCommonFields env r res)
  else
    .error "Unrecognized receipt format"

/-- The `ledger` sub-document of a stored interaction event. -/
structure LedgerInfo where
  prev_hash : Option String := none
  row_hash : Option String := none
  signature : Option String := none
deriving DecidableEq

/-- A stored interaction event, as read back from the ledger for
verification.  `metadata` and `analysis` are kept as opaque serialized
strings. -/
structure Event where
  event_id : Option String := none
  session_id : Option String := none
  user : Option String := none
  model_vendor : Option String := none
  model_name : Option String := none
  timestamp : Option String := none
  prompt : Option String := none
  response : Option String := none
  metadata : Option String := none
  analysis : Option String := none
  ledger : Option LedgerInfo := none
deriving DecidableEq

/-- The controller-side `ledgerEntryToReceipt`
(`receiptVerifier.controller.js`): rebuilds a receipt-shaped record from a
stored event; `entry_hash` falls back to the empty string when
`ledger.row_hash` is absent. -/
def ledgerEntryToReceipt (env : Env) (event : Event) : Receipt :=
  let canonical : EventCanonical :=
    { event_id := event.event_id
      session_id := event.session_id
      user := event.user
      model_vendor := event.model_vendor
      model_name := event.model_name
      timestamp := event.timestamp
      prompt := event.prompt
      response := event.response
      metadata := event.metadata
      analysis := jsOrNull event.analysis
      prev_hash := jsOrNull (event.ledger.bind LedgerInfo.prev_hash) }
  let payload := env.stableStringifyEv canonical
  let inputsHash := env.sha256Hex (jsOr canonical.prompt "")
  let outputsHash := env.sha256Hex (jsOr canonical.response "")
  { payload := some payload
    inputs_hash := some inputsHash
    outputs_hash := some outputsHash
    prev_hash := jsOrNull (event.ledger.bind LedgerInfo.prev_hash)
    entry_hash := some (jsOr (event.ledger.bind LedgerInfo.row_hash) "")
    ed25519_pubkey := env.envPubkey
    ed25519_sig := jsOrNull (event.ledger.bind LedgerInfo.signature)
    policy_id := some "ledger.v1"
    created_at := none
    timestamp := none }

/-- One element of the `chainResults` array in `verifySessionChain`.
`prev_hash` is the running hash of the loop, not the stored one. -/
structure ChainEntry where
  index : Nat
  event_id : Option String
  hash_valid : Bool
  signature_valid : Option Bool
  expected_hash : String
  actual_hash : String
  prev_hash : Option String
deriving DecidableEq

/-- The `summary` block of a session-chain result. -/
structure ChainSummary where
  total_events : Nat
  hash_chain_valid : Bool
  signatures_valid : Nat
  signatures_invalid : Nat
  signatures_unchecked : Nat
deriving DecidableEq

/-- The `data` object returned by `verifySessionChain`; the empty-session
answer carries only `valid`, `message` and `count`. -/
structure SessionData where
  valid : Bool
  message : Option String := none
  count : Nat
  results : Option (List ChainEntry) := none
  summary : Option ChainSummary := none
deriving DecidableEq

/-- One iteration of the `verifySessionChain` loop: convert the event,
recompute the expected hash from the running `prevHash` (note the JS
coercion of an initial `null` to the string `"null"` inside the string
concatenation), optionally verify the signature (a throw aborts the whole
request), and report the entry together with the next running hash. -/
def chainStep (env : Env) (event : Event) (i : Nat) (prevHash : Option String) :
    Except String (ChainEntry × String) :=
  let receipt := ledgerEntryToReceipt env event
  let expectedHash := env.sha256Hex (jsConcatStr prevHash ++
    (receipt.inputs_hash).getD "" ++ (receipt.outputs_hash).getD "")
  let actual := (receipt.entry_hash).getD ""
  let hashValid := actual == expectedHash
  let sigRes : Except String (Option Bool) :=
    if truthy receipt.ed25519_sig && truthy receipt.ed25519_pubkey then
      match verifyEd25519Signature env actual ((receipt.ed25519_sig).getD "")
          ((receipt.ed25519_pubkey).getD "") with
      | .ok b => .ok (some b)
      | .error e => .error e
    else .ok none
  match sigRes with
  | .error e => .error e
  | .ok sv =>
    .ok ({ index := i, event_id := event.event_id, hash_valid := hashValid,
           signature_valid := sv, expected_hash := expectedHash, actual_hash := actual,
           prev_hash := prevHash }, actual)

/-- The `verifySessionChain` loop: entries accumulate in order and the
loop stops after the first entry whose hash check fails. -/
def chainLoop (env : Env) (events : List Event) (i : Nat) (prevHash : Option String) :
    Except String (List ChainEntry) :=
  match events with
  | [] => .ok []
  | e :: rest =>
    match chainStep env e i prevHash with
    | .error msg => .error msg
    | .ok (entry, nextPrev) =>
      if entry.hash_valid then
        match chainLoop env rest (i + 1) (some nextPrev) with
        | .error msg => .error msg
        | .ok tl => .ok (entry :: tl)
      else .ok [entry]

/-- `verifySessionChain` from `receiptVerifier.controller.js`: the empty
session is valid with zero count; otherwise the chain is walked and the
overall flag is the conjunction of per-entry hash validity and
non-failing signature checks. -/
def verifySessionChain (env : Env) (events : List Event) : Except String SessionData :=
  if events.length == 0 then
    .ok { valid := true, message := some "No events found in session", count := 0 }
  else
    match chainLoop env events 0 none with
    | .error msg => .error msg
    | .ok results =>
      let allValid := results.all fun r =>
        r.hash_valid && (r.signature_valid == none || r.signature_valid == some true)
      .ok { valid := allValid
            count := events.length
            results := some results
            summary := some
              { total_events := events.length
                hash_chain_valid := results.all (fun r => r.hash_valid)
                signatures_valid :=
                  (results.filter (fun r => r.signature_valid == some true)).length
                signatures_invalid :=
                  (results.filter (fun r => r.signature_valid == some false)).length
                signatures_unchecked :=
                  (results.filter (fun r => r.signature_valid == none)).length } }

/-- Erase the stored `prev_hash` of an event's ledger block; used to state
that the session-chain audit never reads it. -/
def scrubPrev (e : Event) : Event :=
  { e with ledger := e.ledger.map fun l => { l with prev_hash := none } }

/-- Decidable equality for `Except`, used to evaluate the embedded
operations at concrete inputs. -/
instance {ε α : Type} [DecidableEq ε] [DecidableEq α] : DecidableEq (Except ε α) := fun x y =>
  match x, y with
  | .ok a, .ok b =>
    if h : a = b then isTrue (by rw [h]) else isFalse (by intro hc; cases hc; exact h rfl)
  | .error a, .error b =>
    if h : a = b then isTrue (by rw [h]) else isFalse (by intro hc; cases hc; exact h rfl)
  | .ok _, .error _ => isFalse (by intro hc; cases hc)
  | .error _, .ok _ => isFalse (by intro hc; cases hc)

/-- Concrete witness digest: prefixing is injective and never empty, a
stand-in for the collision-freeness ideal of SHA-256. -/
def dgT (s : String) : String := "D" ++ s

/-- Concrete witness encoding of an optional string. -/
def optStr : Option String → String
  | none => "-"
  | some s => "+" ++ s

/-- Concrete witness canonical encoder for payloads. -/
def strT (p : CanonicalPayload) : String :=
  "P:" ++ optStr p.event_id ++ "|" ++ optStr p.session_id ++ "|" ++ optStr p.user_id ++ "|" ++
  optStr p.model_vendor ++ "|" ++ optStr p.model_name ++ "|" ++ optStr p.timestamp ++ "|" ++
  toString p.prompt_length ++ "|" ++ toString p.response_length ++ "|" ++ p.prompt_hash ++ "|" ++
  p.response_hash ++ "|" ++ p.metadata ++ "|" ++ p.trust_version

/-- The canonical payload of the witness interaction `dataW` at time
`"T"`, written out literally. -/
def p1lit : CanonicalPayload :=
  { event_id := some "e1", session_id := some "s1", user_id := none,
    model_vendor := some "unknown", model_name := none, timestamp := some "T",
    prompt_length := 4, response_length := 4, prompt_hash := "Dping",
    response_hash := "Dpong", metadata := emptyMeta, trust_version := "1.0",
    compliance := complianceBlock }

/-- Concrete witness environment: injective digest, one-point JSON
parser matched to `p1lit`, and a toy signature scheme in which a
signature is valid exactly when it is the tag of the message and key. -/
def envW : Env :=
  { sha256Hex := dgT
    stableStringify := strT
    jsonParse := fun s => if s == strT p1lit then some p1lit else none
    stableStringifyEv := fun _ => "EV"
    verifyCrypto := fun m s p => .ok (s == "SIG" ++ m ++ p)
    signCrypto := fun m _ => some ("SIG" ++ m ++ "PUB")
    isValidDate := fun _ => true
    isUuidFmt := fun _ => false
    envPubkey := none }

/-- Witness environment whose underlying crypto primitive always throws,
as Node crypto does on malformed key material. -/
def envBad : Env :=
  { envW with verifyCrypto := fun _ _ _ => .error "bad key" }

/-- Witness key pair. -/
def kW : ReceiptKeys := { privateKeyPem := some "PRIV", publicKeyBase64Url := some "PUB" }

/-- Witness interaction data. -/
def dataW : InteractionData :=
  { event_id := some "e1", session_id := some "s1",
    prompt := some "ping", response := some "pong" }


/-- Witness event: the first entry of a session whose stored `row_hash`
follows the standalone chain rule (empty-string sentinel). -/
def evFirst : Event :=
  { prompt := some "ping", response := some "pong",
    ledger := some { prev_hash := none,
                     row_hash := some (dgT (dgT "ping" ++ dgT "pong")),
                     signature := none } }

/-- The stored row hash of `evA`, matching the session auditor's own rule
for a first entry (with the JS `"null"` coercion). -/
def rowA : String := dgT ("null" ++ dgT "ping" ++ dgT "pong")

/-- Witness event A: a first entry that the session auditor accepts. -/
def evA : Event :=
  { event_id := some "A", prompt := some "ping", response := some "pong",
    ledger := some { prev_hash := none, row_hash := some rowA, signature := none } }

/-- Witness event B: chained after A by row hash, but with a corrupted
stored `prev_hash`. -/
def evB : Event :=
  { event_id := some "B", prompt := some "ping2", response := some "pong2",
    ledger := some { prev_hash := some "corrupted",
                     row_hash := some (dgT (rowA ++ dgT "ping2" ++ dgT "pong2")),
                     signature := none } }

/-- Witness Ed25519-signed receipt, valid under `envW`. -/
def rEdW : Receipt :=
  { payload := some (strT p1lit), inputs_hash := some "X1", outputs_hash := some "X2",
    prev_hash := some "X3", entry_hash := some (dgT (strT p1lit)),
    ed25519_pubkey := some "PUB", ed25519_sig := some ("SIG" ++ dgT (strT p1lit) ++ "PUB") }

/-- Witness chain-only receipt, valid under `envW`. -/
def rChW : Receipt :=
  { inputs_hash := some "ii", outputs_hash := some "oo", prev_hash := some "pp",
    entry_hash := some (dgT ("pp" ++ "ii" ++ "oo")) }


/-- A string of length zero is the empty string. -/
theorem str_eq_empty_of_length {s : String} (h : s.length = 0) : s = "" :=
  String.ext (List.length_eq_zero.mp h)

/-- A string with the same length as a nonempty string is nonempty. -/
theorem ne_empty_of_length_eq {s t : String} (hl : t.length = s.length) (hs : s ≠ "") :
    t ≠ "" := by
  intro ht
  exact hs (str_eq_empty_of_length (by rw [← hl, ht]; rfl))

/-- Changing the middle component of a three-part concatenation changes
the concatenation, provided the replacement has the same length. -/
theorem append_mid_ne {a b c b' : String} (hl : b'.length = b.length) (hne : b' ≠ b) :
    a ++ b' ++ c ≠ a ++ b ++ c := by
  intro h
  apply hne
  apply String.ext
  have hd : a.data ++ (b'.data ++ c.data) = a.data ++ (b.data ++ c.data) := by
    have h2 := congrArg String.data h
    simpa [String.data_append, List.append_assoc] using h2
  exact (List.append_inj (List.append_cancel_left hd) hl).1

/-- Changing the first component of a three-part concatenation changes
the concatenation, provided the replacement has the same length. -/
theorem append_left_ne {a a' b c : String} (hl : a'.length = a.length) (hne : a' ≠ a) :
    a' ++ b ++ c ≠ a ++ b ++ c := by
  intro h
  apply hne
  apply String.ext
  have hd : a'.data ++ (b.data ++ c.data) = a.data ++ (b.data ++ c.data) := by
    have h2 := congrArg String.data h
    simpa [String.data_append, List.append_assoc] using h2
  exact (List.append_inj hd hl).1

/-- Changing the last component of a three-part concatenation changes the
concatenation. -/
theorem append_right_ne {a b c c' : String} (hne : c' ≠ c) :
    a ++ b ++ c' ≠ a ++ b ++ c := by
  intro h
  apply hne
  apply String.ext
  have hd : a.data ++ (b.data ++ c'.data) = a.data ++ (b.data ++ c.data) := by
    have h2 := congrArg String.data h
    simpa [String.data_append, List.append_assoc] using h2
  exact List.append_cancel_left (List.append_cancel_left hd)

/-- The witness digest is never empty. -/
theorem dgT_ne_empty (s : String) : dgT s ≠ "" := by
  intro h
  have h2 := congrArg String.length h
  simp [dgT] at h2
  exact absurd h2.1 (by decide)

/-- The witness digest is injective. -/
theorem dgT_inj : Function.Injective dgT := by
  intro a b h
  apply String.ext
  have h2 := congrArg String.data h
  simpa [dgT, String.data_append] using h2

/-- Appending a check does not change validity. -/
theorem pushCheck_valid (res : VerifyResult) (c : Check) :
    (pushCheck res c).valid = res.valid := rfl

/-- Appending a warning does not change validity. -/
theorem pushWarning_valid (res : VerifyResult) (w : Warning) :
    (pushWarning res w).valid = res.valid := rfl

/-- Appending a warning does not change the checks. -/
theorem pushWarning_checks (res : VerifyResult) (w : Warning) :
    (pushWarning res w).checks = res.checks := rfl

/-- The common-field validation only adds warnings. -/
theorem validateCommonFields_valid (env : Env) (r : Receipt) (res : VerifyResult) :
    (validateCommonFields env r res).valid = res.valid := by
  unfold validateCommonFields
  split <;> rfl

/-- The common-field validation does not touch the checks. -/
theorem validateCommonFields_checks (env : Env) (r : Receipt) (res : VerifyResult) :
    (validateCommonFields env r res).checks = res.checks := by
  unfold validateCommonFields
  split <;> rfl

/-- The payload-structure validation only adds warnings. -/
theorem validatePayloadStructure_valid (env : Env) (p : CanonicalPayload) (res : VerifyResult) :
    (validatePayloadStructure env p res).valid = res.valid := by
  unfold validatePayloadStructure
  split <;> split <;> split <;> split <;> rfl

/-- The payload-structure validation does not touch the checks. -/
theorem validatePayloadStructure_checks (env : Env) (p : CanonicalPayload) (res : VerifyResult) :
    (validatePayloadStructure env p res).checks = res.checks := by
  unfold validatePayloadStructure
  split <;> split <;> split <;> split <;> rfl

/-- The required-fields loop is the identity when every listed field is
truthy. -/
theorem pushMissing_of_truthy (res : VerifyResult) (l : List (String × Option String))
    (h : ∀ x ∈ l, truthy x.2 = true) : pushMissing res l = res := by
  induction l generalizing res with
  | nil => rfl
  | cons hd tl ih =>
    have hh : truthy hd.2 = true := h hd (List.mem_cons_self hd tl)
    have htl : ∀ x ∈ tl, truthy x.2 = true := fun x hx => h x (List.mem_cons_of_mem hd hx)
    calc pushMissing res (hd :: tl) = pushMissing res tl := by
          simp [pushMissing, List.foldl_cons, hh]
      _ = res := ih res htl

/-- Field extraction from the hash-chain dispatch condition. -/
theorem chainShape_fields {r : Receipt} (h : chainShape r = true) :
    truthy r.entry_hash = true ∧ truthy r.inputs_hash = true ∧ truthy r.outputs_hash = true := by
  rcases (Bool.and_eq_true _ _).mp h with ⟨hab, hc⟩
  rcases (Bool.and_eq_true _ _).mp hab with ⟨ha, hb⟩
  exact ⟨ha, hb, hc⟩

/-- On a chain-shaped, non-signed receipt, `verifyReceiptStructure`
reduces to the hash-chain verifier followed by the common-field
validation. -/
theorem verifyChain_eq (env : Env) (r : Receipt) (hed : edShape r = false)
    (hch : chainShape r = true) :
    verifyReceiptStructure env r = .ok (validateCommonFields env r
      (verifyHashChainReceipt env r
        { valid := true, checks := [], warnings := [], receipt_type := some "hash_chain" })) := by
  simp [verifyReceiptStructure, hed, hch]

/-- Evaluation of the hash-chain verifier on a chain-shaped receipt and a
still-valid result: a single comparison of the recomputed digest against
the stored `entry_hash`. -/
theorem verifyHashChainReceipt_eval (env : Env) (r : Receipt) (hch : chainShape r = true)
    (res : VerifyResult) (hval : res.valid = true) :
    verifyHashChainReceipt env r res =
      if env.sha256Hex (jsOr r.prev_hash "" ++ (r.inputs_hash).getD "" ++ (r.outputs_hash).getD "")
         == (r.entry_hash).getD "" then
        pushCheck res { field := "entry_hash", status := "valid", message := "Hash chain verified" }
      else
        { res with
          valid := false
          checks := res.checks ++
            [{ field := "entry_hash", status := "mismatch",
               message := "Entry hash does not match recomputed hash",
               expected := some (env.sha256Hex (jsOr r.prev_hash "" ++ (r.inputs_hash).getD "" ++
                                                (r.outputs_hash).getD "")),
               actual := some ((r.entry_hash).getD ""),
               components := some (r.prev_hash, (r.inputs_hash).getD "",
                                   (r.outputs_hash).getD "") }] } := by
  obtain ⟨h1, h2, h3⟩ := chainShape_fields hch
  have hfields : ∀ x ∈ chainRequiredFields r, truthy x.2 = true := by
    intro x hx
    simp [chainRequiredFields] at hx
    rcases hx with rfl | rfl | rfl <;> assumption
  unfold verifyHashChainReceipt
  rw [pushMissing_of_truthy _ _ hfields]
  simp only [hval, Bool.not_true]
  simp

/-- A valid verdict on a chain-shaped receipt pins down the hash
equation. -/
theorem verifyChain_valid_hash (env : Env) (r : Receipt) (res : VerifyResult)
    (hed : edShape r = false) (hch : chainShape r = true)
    (hok : verifyReceiptStructure env r = .ok res) (hval : res.valid = true) :
    env.sha256Hex (jsOr r.prev_hash "" ++ (r.inputs_hash).getD "" ++ (r.outputs_hash).getD "") =
      (r.entry_hash).getD "" := by
  rw [verifyChain_eq env r hed hch] at hok
  rw [verifyHashChainReceipt_eval env r hch _ rfl] at hok
  have hres := Except.ok.inj hok
  by_cases hbe : (env.sha256Hex (jsOr r.prev_hash "" ++ (r.inputs_hash).getD "" ++
      (r.outputs_hash).getD "") == (r.entry_hash).getD "") = true
  · exact beq_iff_eq.mp hbe
  · exfalso
    rw [if_neg hbe] at hres
    have hv := hval
    rw [← hres, validateCommonFields_valid] at hv
    simp at hv

/-- A failing hash equation on a chain-shaped receipt yields an invalid
verdict with an `entry_hash` mismatch check. -/
theorem verifyChain_mismatch (env : Env) (r : Receipt)
    (hed : edShape r = false) (hch : chainShape r = true)
    (hne : env.sha256Hex (jsOr r.prev_hash "" ++ (r.inputs_hash).getD "" ++
      (r.outputs_hash).getD "") ≠ (r.entry_hash).getD "") :
    ∃ res, verifyReceiptStructure env r = .ok res ∧ res.valid = false ∧
      ∃ c ∈ res.checks, c.field = "entry_hash" ∧ c.status = "mismatch" := by
  have hbe : ¬ ((env.sha256Hex (jsOr r.prev_hash "" ++ (r.inputs_hash).getD "" ++
      (r.outputs_hash).getD "") == (r.entry_hash).getD "") = true) := by
    intro hb
    exact hne (beq_iff_eq.mp hb)
  refine ⟨_, verifyChain_eq env r hed hch, ?_, ?_⟩
  · rw [validateCommonFields_valid, verifyHashChainReceipt_eval env r hch _ rfl, if_neg hbe]
  · rw [validateCommonFields_checks, verifyHashChainReceipt_eval env r hch _ rfl, if_neg hbe]
    exact ⟨{ field := "entry_hash", status := "mismatch",
             message := "Entry hash does not match recomputed hash",
             expected := some (env.sha256Hex (jsOr r.prev_hash "" ++ (r.inputs_hash).getD "" ++
                                              (r.outputs_hash).getD "")),
             actual := some ((r.entry_hash).getD ""),
             components := some (r.prev_hash, (r.inputs_hash).getD "",
                                 (r.outputs_hash).getD "") },
           by simp, rfl, rfl⟩

/-- The fixed fields of the receipt value produced by the builder. -/
theorem buildReceiptValue_fields (env : Env) (k : ReceiptKeys) (data : InteractionData)
    (opts : ReceiptOptions) (now : String) :
    (buildReceiptValue env k data opts now).payload =
      some (env.stableStringify (builderPayload env data now)) ∧
    (buildReceiptValue env k data opts now).inputs_hash =
      some (env.sha256Hex (data.prompt.getD "")) ∧
    (buildReceiptValue env k data opts now).outputs_hash =
      some (env.sha256Hex (data.response.getD "")) ∧
    (buildReceiptValue env k data opts now).prev_hash = jsOrNull opts.prev_hash ∧
    (buildReceiptValue env k data opts now).entry_hash =
      some (env.sha256Hex (env.stableStringify (builderPayload env data now))) ∧
    (buildReceiptValue env k data opts now).ed25519_pubkey = k.publicKeyBase64Url ∧
    (buildReceiptValue env k data opts now).timestamp = none := by
  unfold buildReceiptValue
  dsimp only
  split
  · split <;> exact ⟨rfl, rfl, rfl, rfl, rfl, rfl, rfl⟩
  · exact ⟨rfl, rfl, rfl, rfl, rfl, rfl, rfl⟩

/-- Without a configured signing key the builder leaves the signature
absent. -/
theorem buildReceiptValue_sig_none (env : Env) (k : ReceiptKeys) (data : InteractionData)
    (opts : ReceiptOptions) (now : String) (h : truthy k.privateKeyPem = false) :
    (buildReceiptValue env k data opts now).ed25519_sig = none := by
  unfold buildReceiptValue
  dsimp only
  rw [h]
  rfl

/-- With a configured signing key and a successful signing call, the
builder attaches the produced signature. -/
theorem buildReceiptValue_sig_some (env : Env) (k : ReceiptKeys) (data : InteractionData)
    (opts : ReceiptOptions) (now : String) (h : truthy k.privateKeyPem = true) {sig : String}
    (hs : env.signCrypto (env.sha256Hex (env.stableStringify (builderPayload env data now)))
      ((k.privateKeyPem).getD "") = some sig) :
    (buildReceiptValue env k data opts now).ed25519_sig = some sig := by
  unfold buildReceiptValue
  dsimp only
  rw [h]
  simp only [if_true]
  rw [hs]

/-- A validated interaction makes the builder succeed with the built
receipt value. -/
theorem generateTrustReceipt_ok (env : Env) (k : ReceiptKeys) (data : InteractionData)
    (opts : ReceiptOptions) (now : String)
    (h : (truthy data.event_id && truthy data.session_id && truthy data.prompt &&
          truthy data.response) = true) :
    generateTrustReceipt env (some k) data opts now =
      .ok (buildReceiptValue env k data opts now) := by
  simp [generateTrustReceipt, h]

/-- C8: auditing an empty session (zero receipts) returns a result with
`valid = true` and a count of zero entries. -/
theorem C8_empty_session_valid (env : Env) :
    verifySessionChain env [] =
      .ok { valid := true, message := some "No events found in session", count := 0,
            results := none, summary := none } := rfl

/-- C7: a receipt satisfying neither required-field set is rejected with
the structural error `Unrecognized receipt format`, for every environment
(so before and independently of any hash or signature computation), and
no verdict object is produced. -/
theorem C7_malformed_rejected (env : Env) (r : Receipt)
    (hed : edShape r = false) (hch : chainShape r = false) :
    verifyReceiptStructure env r = .error "Unrecognized receipt format" := by
  simp [verifyReceiptStructure, hed, hch]

/-- Witness for C7 at the all-absent receipt. -/
theorem C7_malformed_rejected_witness :
    edShape ({} : Receipt) = false ∧ chainShape ({} : Receipt) = false ∧
    verifyReceiptStructure envW ({} : Receipt) = .error "Unrecognized receipt format" :=
  ⟨by decide, by decide, C7_malformed_rejected envW {} (by decide) (by decide)⟩

/-- C10: with an initialized service, the builder fails with the
`Missing required fields` error exactly when one of `event_id`,
`session_id`, `prompt`, `response` is not truthy, and a receipt value is
returned only when all four are. -/
theorem C10_required_fields (env : Env) (k : ReceiptKeys) (data : InteractionData)
    (opts : ReceiptOptions) (now : String) :
    ((truthy data.event_id && truthy data.session_id && truthy data.prompt &&
      truthy data.response) = false →
      generateTrustReceipt env (some k) data opts now =
        .error "Missing required fields: event_id, session_id, prompt, response") ∧
    (∀ r, generateTrustReceipt env (some k) data opts now = .ok r →
      (truthy data.event_id && truthy data.session_id && truthy data.prompt &&
       truthy data.response) = true) := by
  constructor
  · intro h
    simp [generateTrustReceipt, h]
  · intro r hr
    by_cases hc : (truthy data.event_id && truthy data.session_id && truthy data.prompt &&
        truthy data.response) = true
    · exact hc
    · exfalso
      rw [Bool.not_eq_true] at hc
      simp [generateTrustReceipt, hc] at hr

/-- Witness for C10: a missing prompt is rejected, a complete descriptor
is accepted. -/
theorem C10_required_fields_witness :
    generateTrustReceipt envW (some kW)
      { event_id := some "e1", session_id := some "s1", response := some "pong" } {} "T" =
      .error "Missing required fields: event_id, session_id, prompt, response" ∧
    (truthy dataW.event_id && truthy dataW.session_id && truthy dataW.prompt &&
     truthy dataW.response) = true :=
  ⟨(C10_required_fields envW kW _ {} "T").1 (by decide),
   (C10_required_fields envW kW dataW {} "T").2 (buildReceiptValue envW kW dataW {} "T")
     (by decide)⟩

/-- C2: the session-chain audit does not recompute the first entry's hash
the way the standalone chain verifier does.  The event `evFirst` carries
the standalone rule's row hash `digest(empty ++ inputs_hash ++
outputs_hash)`: the standalone verifier accepts it, while the session
audit recomputes `digest("null" ++ inputs_hash ++ outputs_hash)` (the JS
coercion of the initial `null` running hash) and reports it invalid. -/
theorem C2_first_entry_null_coercion :
    (verifyReceiptStructure envW (ledgerEntryToReceipt envW evFirst)).map
      (fun res => res.valid) = .ok true ∧
    (ledgerEntryToReceipt envW evFirst).entry_hash =
      some (envW.sha256Hex ("" ++ envW.sha256Hex "ping" ++ envW.sha256Hex "pong")) ∧
    (verifySessionChain envW [evFirst]).map (fun d => d.valid) = .ok false ∧
    (verifySessionChain envW [evFirst]).map
      (fun d => d.results.map (List.map ChainEntry.expected_hash)) =
      .ok (some [envW.sha256Hex ("null" ++ envW.sha256Hex "ping" ++ envW.sha256Hex "pong")]) := by
  refine ⟨by decide, by decide, by decide, by decide⟩

/-- C3 counterexample: with no signing key configured
(`privateKeyPem = null`), the builder still sets `entry_hash` to the
digest of the canonical payload (and merely leaves the signature absent);
it does not equal the chain digest of `prior_entry_hash ++ inputs_hash ++
outputs_hash`. -/
theorem C3_counterexample :
    (generateTrustReceipt envW
        (some { privateKeyPem := none, publicKeyBase64Url := some "PUB" }) dataW
        { prev_hash := some "PH" } "T").map
      (fun r => (r.entry_hash, r.ed25519_sig)) =
      .ok (some (envW.sha256Hex (envW.stableStringify (builderPayload envW dataW "T"))), none) ∧
    (generateTrustReceipt envW
        (some { privateKeyPem := none, publicKeyBase64Url := some "PUB" }) dataW
        { prev_hash := some "PH" } "T").map (fun r => r.entry_hash) ≠
      .ok (some (envW.sha256Hex ("PH" ++ envW.sha256Hex "ping" ++ envW.sha256Hex "pong"))) := by
  refine ⟨by decide, by decide⟩

/-- C3 (amended): for every event descriptor with the required fields and
every prior-hash option, the builder sets `entry_hash` to the digest of
the canonical payload regardless of key configuration; the key only
controls whether a signature is attached. -/
theorem C3_entry_hash_always_payload_digest (env : Env) (k : ReceiptKeys)
    (data : InteractionData) (opts : ReceiptOptions) (now : String)
    (h : (truthy data.event_id && truthy data.session_id && truthy data.prompt &&
          truthy data.response) = true) :
    ∃ r, generateTrustReceipt env (some k) data opts now = .ok r ∧
      r.entry_hash = some (env.sha256Hex (env.stableStringify (builderPayload env data now))) ∧
      (truthy k.privateKeyPem = false → r.ed25519_sig = none) := by
  refine ⟨buildReceiptValue env k data opts now, generateTrustReceipt_ok env k data opts now h,
    (buildReceiptValue_fields env k data opts now).2.2.2.2.1, ?_⟩
  intro hk
  exact buildReceiptValue_sig_none env k data opts now hk

/-- Witness for the amended C3 at an unsigned key state. -/
theorem C3_entry_hash_always_payload_digest_witness :
    ∃ r, generateTrustReceipt envW
        (some { privateKeyPem := none, publicKeyBase64Url := some "PUB" }) dataW
        { prev_hash := some "PH" } "T" = .ok r ∧
      r.entry_hash = some (envW.sha256Hex (envW.stableStringify (builderPayload envW dataW "T"))) ∧
      (truthy ({ privateKeyPem := none,
                 publicKeyBase64Url := some "PUB" } : ReceiptKeys).privateKeyPem = false →
        r.ed25519_sig = none) :=
  C3_entry_hash_always_payload_digest envW
    { privateKeyPem := none, publicKeyBase64Url := some "PUB" } dataW
    { prev_hash := some "PH" } "T" (by decide)

/-- C6 counterexample: when the underlying crypto primitive throws (as
Node crypto does on malformed key material), both signature-verification
wrappers rethrow a wrapped error instead of returning `false`. -/
theorem C6_counterexample :
    verifyEd25519Signature envBad "m" "s" "p" =
      .error "Signature verification failed: bad key" ∧
    verifyEd25519Signature envBad "m" "s" "p" ≠ .ok false ∧
    verifySignature envBad "m" "s" "p" = .error "Failed to verify signature: bad key" ∧
    verifySignature envBad "m" "s" "p" ≠ .ok false := by
  refine ⟨by decide, by decide, by decide, by decide⟩

/-- C6 (amended): the signature-verification wrappers return exactly the
boolean of the underlying crypto primitive when it succeeds — for
malformed input on which the primitive throws, they do not return
`false` but rethrow the error wrapped in a descriptive message. -/
theorem C6_sig_verify_propagation (env : Env) (m s p : String) :
    (∀ b, env.verifyCrypto m s p = .ok b →
      verifyEd25519Signature env m s p = .ok b ∧ verifySignature env m s p = .ok b) ∧
    (∀ e, env.verifyCrypto m s p = .error e →
      verifyEd25519Signature env m s p = .error ("Signature verification failed: " ++ e) ∧
      verifySignature env m s p = .error ("Failed to verify signature: " ++ e)) := by
  constructor
  · intro b hb
    simp [verifyEd25519Signature, verifySignature, hb]
  · intro e he
    simp [verifyEd25519Signature, verifySignature, he]

/-- Witness for the amended C6 at a succeeding and a throwing crypto
call. -/
theorem C6_sig_verify_propagation_witness :
    (verifyEd25519Signature envW "m" "s" "p" = .ok false ∧
     verifySignature envW "m" "s" "p" = .ok false) ∧
    (verifyEd25519Signature envBad "m2" "s2" "p2" =
       .error ("Signature verification failed: " ++ "bad key") ∧
     verifySignature envBad "m2" "s2" "p2" =
       .error ("Failed to verify signature: " ++ "bad key")) :=
  ⟨(C6_sig_verify_propagation envW "m" "s" "p").1 false (by decide),
   (C6_sig_verify_propagation envBad "m2" "s2" "p2").2 "bad key" (by decide)⟩

/-- One audit step does not read the stored `prev_hash`. -/
theorem chainStep_scrub (env : Env) (e : Event) (i : Nat) (p : Option String) :
    chainStep env (scrubPrev e) i p = chainStep env e i p := by
  rcases e with ⟨e1, e2, e3, e4, e5, e6, e7, e8, e9, e10, ledg⟩
  rcases ledg with _ | ⟨lp, lr, ls⟩ <;> rfl

/-- The audit loop does not read the stored `prev_hash` of any event. -/
theorem chainLoop_scrub (env : Env) (es : List Event) (i : Nat) (p : Option String) :
    chainLoop env (es.map scrubPrev) i p = chainLoop env es i p := by
  induction es generalizing i p with
  | nil => rfl
  | cons e rest ih =>
    show chainLoop env (scrubPrev e :: rest.map scrubPrev) i p = _
    unfold chainLoop
    rw [chainStep_scrub]
    simp only [ih]

/-- The whole session audit does not read the stored `prev_hash` of any
event. -/
theorem verifySessionChain_scrub (env : Env) (es : List Event) :
    verifySessionChain env (es.map scrubPrev) = verifySessionChain env es := by
  unfold verifySessionChain
  rw [List.length_map, chainLoop_scrub]

/-- C4 counterexample: two events whose row hashes satisfy the audit's
own recomputation rule, the second of which carries a corrupted stored
`prev_hash` (different from the first entry's hash).  The audit reports
no break at all — `valid = true` with both entries hash-valid — instead
of `break_at = 1`. -/
theorem C4_corrupt_prev_not_detected :
    (ledgerEntryToReceipt envW evB).prev_hash = some "corrupted" ∧
    (ledgerEntryToReceipt envW evB).prev_hash ≠ (ledgerEntryToReceipt envW evA).entry_hash ∧
    (verifySessionChain envW [evA, evB]).map
      (fun d => (d.valid, d.results.map (List.map ChainEntry.hash_valid))) =
      .ok (true, some [true, true]) := by
  refine ⟨by decide, by decide, by decide⟩

/-- C4 (amended): the session-chain audit never compares the stored
`prev_hash` of any receipt against the expected predecessor hash — its
result is unchanged under arbitrary modification of the stored
`prev_hash` values (it recomputes each expected hash from its own running
hash and stops only on an `entry_hash` mismatch).  Consequently
corrupting only the stored `prev_hash` of the second of two receipts
never changes the audit verdict. -/
theorem C4_audit_ignores_stored_prev (env : Env) (es es2 : List Event)
    (h : es.map scrubPrev = es2.map scrubPrev) :
    verifySessionChain env es = verifySessionChain env es2 := by
  rw [← verifySessionChain_scrub env es, ← verifySessionChain_scrub env es2, h]

/-- Witness for the amended C4: corrupting the stored `prev_hash` of the
second event leaves the audit result unchanged. -/
theorem C4_audit_ignores_stored_prev_witness :
    verifySessionChain envW [evA, evB] =
      verifySessionChain envW [evA,
        { evB with ledger := (evB.ledger).map fun l => { l with prev_hash := some "zz" } }] :=
  C4_audit_ignores_stored_prev envW _ _ (by decide)

/-- Truthiness of a present string is nonemptiness. -/
theorem truthy_some_iff {s : String} : truthy (some s) = true ↔ s ≠ "" := by
  simp [truthy]

/-- JS `s || d` keeps a nonempty string. -/
theorem jsOr_some_of_ne {s d : String} (h : s ≠ "") : jsOr (some s) d = s := by
  simp [jsOr, h]

/-- C5 counterexample: a valid Ed25519-signed receipt stays valid after a
single-character change of its `inputs_hash` — the signed-form verifier
never reads `inputs_hash`, `outputs_hash` or `prev_hash`. -/
theorem C5_counterexample :
    (verifyReceiptStructure envW rEdW).map (fun res => res.valid) = .ok true ∧
    ({ rEdW with inputs_hash := some "Y1" } : Receipt).inputs_hash ≠ rEdW.inputs_hash ∧
    (verifyReceiptStructure envW { rEdW with inputs_hash := some "Y1" }).map
      (fun res => res.valid) = .ok true := by
  refine ⟨by decide, by decide, by decide⟩

/-- C5 (amended): tamper sensitivity holds for the chain-only shape —
given a collision-free digest, changing `inputs_hash`, `outputs_hash` or
a present `prev_hash` of a valid chain-routed receipt to any different
string of the same length makes verification return `valid = false` with
an `entry_hash` mismatch check.  For the signed shape those three fields
are not read at all: the verdict is unchanged under arbitrary
replacement of them. -/
theorem C5_tamper_sensitivity (env : Env) (hinj : Function.Injective env.sha256Hex) :
    (∀ (r : Receipt) (res : VerifyResult) (s s2 : String),
      edShape r = false →
      verifyReceiptStructure env r = .ok res →
      res.valid = true →
      s2.length = s.length → s2 ≠ s →
      ((r.inputs_hash = some s →
          ∃ res2, verifyReceiptStructure env { r with inputs_hash := some s2 } = .ok res2 ∧
            res2.valid = false ∧
            ∃ c ∈ res2.checks, c.field = "entry_hash" ∧ c.status = "mismatch") ∧
        (r.outputs_hash = some s →
          ∃ res2, verifyReceiptStructure env { r with outputs_hash := some s2 } = .ok res2 ∧
            res2.valid = false ∧
            ∃ c ∈ res2.checks, c.field = "entry_hash" ∧ c.status = "mismatch") ∧
        (r.prev_hash = some s →
          ∃ res2, verifyReceiptStructure env { r with prev_hash := some s2 } = .ok res2 ∧
            res2.valid = false ∧
            ∃ c ∈ res2.checks, c.field = "entry_hash" ∧ c.status = "mismatch"))) ∧
    (∀ (r : Receipt) (x y z : Option String), edShape r = true →
      verifyReceiptStructure env { r with inputs_hash := x, outputs_hash := y, prev_hash := z } =
        verifyReceiptStructure env r) := by
  constructor
  · intro r res s s2 hed hok hval hlen hne
    have hch : chainShape r = true := by
      by_cases hc : chainShape r = true
      · exact hc
      · rw [Bool.not_eq_true] at hc
        simp [verifyReceiptStructure, hed, hc] at hok
    obtain ⟨h1, h2, h3⟩ := chainShape_fields hch
    have hhash := verifyChain_valid_hash env r res hed hch hok hval
    refine ⟨?_, ?_, ?_⟩
    · intro hi
      rw [hi] at h2
      have hsne : s ≠ "" := truthy_some_iff.mp h2
      have hs2ne : s2 ≠ "" := ne_empty_of_length_eq hlen hsne
      have hch2 : chainShape { r with inputs_hash := some s2 } = true := by
        show (truthy r.entry_hash && truthy (some s2) && truthy r.outputs_hash) = true
        rw [h1, truthy_some_iff.mpr hs2ne, h3]
        rfl
      have hne2 : env.sha256Hex (jsOr ({ r with inputs_hash := some s2 } : Receipt).prev_hash ""
          ++ (({ r with inputs_hash := some s2 } : Receipt).inputs_hash).getD ""
          ++ (({ r with inputs_hash := some s2 } : Receipt).outputs_hash).getD "") ≠
          (({ r with inputs_hash := some s2 } : Receipt).entry_hash).getD "" := by
        show env.sha256Hex (jsOr r.prev_hash "" ++ s2 ++ (r.outputs_hash).getD "") ≠
          (r.entry_hash).getD ""
        intro hcontra
        rw [hi] at hhash
        simp only [Option.getD_some] at hhash
        exact append_mid_ne hlen hne (hinj (hcontra.trans hhash.symm))
      exact verifyChain_mismatch env { r with inputs_hash := some s2 } hed hch2 hne2
    · intro ho
      rw [ho] at h3
      have hsne : s ≠ "" := truthy_some_iff.mp h3
      have hs2ne : s2 ≠ "" := ne_empty_of_length_eq hlen hsne
      have hch2 : chainShape { r with outputs_hash := some s2 } = true := by
        show (truthy r.entry_hash && truthy r.inputs_hash && truthy (some s2)) = true
        rw [h1, h2, truthy_some_iff.mpr hs2ne]
        rfl
      have hne2 : env.sha256Hex (jsOr ({ r with outputs_hash := some s2 } : Receipt).prev_hash ""
          ++ (({ r with outputs_hash := some s2 } : Receipt).inputs_hash).getD ""
          ++ (({ r with outputs_hash := some s2 } : Receipt).outputs_hash).getD "") ≠
          (({ r with outputs_hash := some s2 } : Receipt).entry_hash).getD "" := by
        show env.sha256Hex (jsOr r.prev_hash "" ++ (r.inputs_hash).getD "" ++ s2) ≠
          (r.entry_hash).getD ""
        intro hcontra
        rw [ho] at hhash
        simp only [Option.getD_some] at hhash
        exact append_right_ne hne (hinj (hcontra.trans hhash.symm))
      exact verifyChain_mismatch env { r with outputs_hash := some s2 } hed hch2 hne2
    · intro hp
      by_cases hse : s = ""
      · exfalso
        have hs2e : s2 = "" := str_eq_empty_of_length (by rw [hlen, hse]; rfl)
        exact hne (hs2e.trans hse.symm)
      · have hs2ne : s2 ≠ "" := ne_empty_of_length_eq hlen hse
        have hne2 : env.sha256Hex (jsOr ({ r with prev_hash := some s2 } : Receipt).prev_hash ""
            ++ (({ r with prev_hash := some s2 } : Receipt).inputs_hash).getD ""
            ++ (({ r with prev_hash := some s2 } : Receipt).outputs_hash).getD "") ≠
            (({ r with prev_hash := some s2 } : Receipt).entry_hash).getD "" := by
          show env.sha256Hex (jsOr (some s2) "" ++ (r.inputs_hash).getD ""
            ++ (r.outputs_hash).getD "") ≠ (r.entry_hash).getD ""
          rw [jsOr_some_of_ne hs2ne]
          intro hcontra
          rw [hp, jsOr_some_of_ne hse] at hhash
          exact append_left_ne hlen hne (hinj (hcontra.trans hhash.symm))
        exact verifyChain_mismatch env { r with prev_hash := some s2 } hed hch hne2
  · intro r x y z hed1
    have hed2 : edShape { r with inputs_hash := x, outputs_hash := y, prev_hash := z } = true :=
      hed1
    unfold verifyReceiptStructure
    rw [hed1, hed2]
    rfl

/-- Witness for the amended C5: tampering the `inputs_hash` of the valid
chain receipt `rChW` by one character is rejected with an `entry_hash`
mismatch. -/
theorem C5_tamper_sensitivity_witness :
    ∃ res2, verifyReceiptStructure envW { rChW with inputs_hash := some "ij" } = .ok res2 ∧
      res2.valid = false ∧
      ∃ c ∈ res2.checks, c.field = "entry_hash" ∧ c.status = "mismatch" :=
  ((C5_tamper_sensitivity envW dgT_inj).1 rChW
      (validateCommonFields envW rChW (verifyHashChainReceipt envW rChW
        { valid := true, checks := [], warnings := [], receipt_type := some "hash_chain" }))
      "ii" "ij" (by decide) (by decide) (by decide) (by decide) (by decide)).1 rfl

/-- JS `x || null` is the identity on `null` and on nonempty strings. -/
theorem jsOrNull_id {x : Option String} (h : x = none ∨ ∃ s, x = some s ∧ s ≠ "") :
    jsOrNull x = x := by
  rcases h with rfl | ⟨s, rfl, hs⟩
  · rfl
  · simp [jsOrNull, truthy, hs]

/-- The batch loop succeeds on validated interactions and produces the
chain-linking of consecutive receipts. -/
theorem batchLoop_spec (env : Env) (k : ReceiptKeys) (opts : ReceiptOptions) (now : String)
    (hdg : ∀ s, env.sha256Hex s ≠ "") :
    ∀ (ints : List InteractionData) (prev : Option String),
      (∀ d ∈ ints, (truthy d.event_id && truthy d.session_id && truthy d.prompt &&
        truthy d.response) = true) →
      (prev = none ∨ ∃ h, prev = some h ∧ h ≠ "") →
      ∃ rs, batchLoop env (some k) ints opts prev now = .ok rs ∧
        rs.length = ints.length ∧
        (∀ r0, rs.head? = some r0 → r0.prev_hash = prev) ∧
        (∀ i a b, rs[i]? = some a → rs[i + 1]? = some b → b.prev_hash = a.entry_hash) ∧
        (∀ r0 ∈ rs, ∃ h, r0.entry_hash = some h ∧ h ≠ "") := by
  intro ints
  induction ints with
  | nil =>
    intro prev _ _
    refine ⟨[], rfl, rfl, ?_, ?_, ?_⟩
    · intro r0 h0
      simp at h0
    · intro i a b ha hb
      simp at ha
    · intro r0 h0
      simp at h0
  | cons it rest ih =>
    intro prev hall hprev
    have hit := hall it (List.mem_cons_self it rest)
    have hrest : ∀ d ∈ rest, (truthy d.event_id && truthy d.session_id && truthy d.prompt &&
        truthy d.response) = true := fun d hd => hall d (List.mem_cons_of_mem it hd)
    set r := buildReceiptValue env k it { opts with prev_hash := prev } now with hr
    obtain ⟨hpayl, hin, hout, hprevf, hentry, hpubf, hts⟩ :=
      buildReceiptValue_fields env k it { opts with prev_hash := prev } now
    have hentryne : env.sha256Hex (env.stableStringify (builderPayload env it now)) ≠ "" :=
      hdg _
    obtain ⟨rs2, hrs2, hlen2, hhead2, hlink2, hmem2⟩ := ih r.entry_hash
      hrest (by rw [hentry]; exact Or.inr ⟨_, rfl, hentryne⟩)
    refine ⟨r :: rs2, ?_, ?_, ?_, ?_, ?_⟩
    · unfold batchLoop
      rw [generateTrustReceipt_ok env k it { opts with prev_hash := prev } now hit, ← hr]
      show (match batchLoop env (some k) rest opts r.entry_hash now with
        | Except.error e => (Except.error e : Except String (List Receipt))
        | Except.ok rs => Except.ok (r :: rs)) = Except.ok (r :: rs2)
      rw [hrs2]
    · simpa using hlen2
    · intro r0 h0
      have : r0 = r := (by simpa using h0 : r = r0).symm
      rw [this, hprevf]
      exact jsOrNull_id hprev
    · intro i a b ha hb
      cases i with
      | zero =>
        have haa : a = r := (by simpa using ha : r = a).symm
        cases rs2 with
        | nil => simp at hb
        | cons r1 rs3 =>
          have hbb : b = r1 := (by simpa using hb : r1 = b).symm
          rw [haa, hbb]
          exact hhead2 r1 rfl
      | succ n =>
        exact hlink2 n a b (by simpa using ha) (by simpa using hb)
    · intro r0 h0
      rcases List.mem_cons.mp h0 with rfl | hmem
      · exact ⟨_, hentry, hentryne⟩
      · exact hmem2 r0 hmem

/-- C9: the batch generator returns one receipt per interaction; the
first receipt's `prev_hash` is the given starting hash (or `null`), and
each later receipt's `prev_hash` is the previous receipt's
`entry_hash`. -/
theorem C9_batch_chain_links (env : Env) (k : ReceiptKeys) (ints : List InteractionData)
    (opts : ReceiptOptions) (now : String)
    (hall : ∀ d ∈ ints, (truthy d.event_id && truthy d.session_id && truthy d.prompt &&
      truthy d.response) = true)
    (hdg : ∀ s, env.sha256Hex s ≠ "")
    (hstart : opts.prev_hash = none ∨ ∃ h, opts.prev_hash = some h ∧ h ≠ "") :
    ∃ rs, generateBatchReceipts env (some k) ints opts now = .ok rs ∧
      rs.length = ints.length ∧
      (∀ r0, rs.head? = some r0 → r0.prev_hash = opts.prev_hash) ∧
      (∀ i a b, rs[i]? = some a → rs[i + 1]? = some b → b.prev_hash = a.entry_hash) := by
  obtain ⟨rs, hrs, hlen, hhead, hlink, _⟩ := batchLoop_spec env k opts now hdg ints
    (jsOrNull opts.prev_hash) hall (by rw [jsOrNull_id hstart]; exact hstart)
  refine ⟨rs, ?_, hlen, ?_, hlink⟩
  · unfold generateBatchReceipts
    exact hrs
  · intro r0 h0
    rw [hhead r0 h0]
    exact jsOrNull_id hstart

/-- A second witness interaction. -/
def dataW2 : InteractionData :=
  { event_id := some "e2", session_id := some "s1",
    prompt := some "ping2", response := some "pong2" }

/-- Witness for C9 on a two-interaction batch with no starting hash. -/
theorem C9_batch_chain_links_witness :
    ∃ rs, generateBatchReceipts envW (some kW) [dataW, dataW2] {} "T" = .ok rs ∧
      rs.length = ([dataW, dataW2] : List InteractionData).length ∧
      (∀ r0, rs.head? = some r0 → r0.prev_hash = ({} : ReceiptOptions).prev_hash) ∧
      (∀ i a b, rs[i]? = some a → rs[i + 1]? = some b → b.prev_hash = a.entry_hash) :=
  C9_batch_chain_links envW kW [dataW, dataW2] {} "T" (by decide) dgT_ne_empty (Or.inl rfl)

/-- On a signed-shape receipt, `verifyReceiptStructure` reduces to the
Ed25519 verifier followed by the common-field validation. -/
theorem verifyEd_eq (env : Env) (r : Receipt) (hed : edShape r = true) :
    verifyReceiptStructure env r = .ok (validateCommonFields env r
      (verifyEd25519Receipt env r
        { valid := true, checks := [], warnings := [], receipt_type := some "ed25519_signed" })) := by
  simp [verifyReceiptStructure, hed]

/-- The Ed25519 verifier keeps a valid verdict when every required field
is present, the payload parses back to a payload whose canonical digest
is the stored `entry_hash`, and the signature check succeeds. -/
theorem verifyEd25519Receipt_valid (env : Env) (r : Receipt) (res : VerifyResult)
    (hval : res.valid = true)
    (hfe : ∀ x ∈ edRequiredFields r, truthy x.2 = true)
    (p : CanonicalPayload)
    (hparse : env.jsonParse ((r.payload).getD "") = some p)
    (hhash : env.sha256Hex (env.stableStringify p) = (r.entry_hash).getD "")
    (hsig : env.verifyCrypto ((r.entry_hash).getD "") ((r.ed25519_sig).getD "")
      ((r.ed25519_pubkey).getD "") = .ok true) :
    (verifyEd25519Receipt env r res).valid = true := by
  unfold verifyEd25519Receipt
  rw [pushMissing_of_truthy _ _ hfe]
  simp only [hval, Bool.not_true]
  simp only [Bool.false_eq_true, if_false, hparse, hhash]
  simp only [bne_self_eq_false, Bool.false_eq_true, if_false]
  simp only [verifyEd25519Signature, hsig]
  rw [validatePayloadStructure_valid, pushCheck_valid, pushCheck_valid]
  exact hval

/-- C1: for every event descriptor with the required fields and every
prior-hash option, when a working signing key pair is configured (signing
succeeds and its signatures verify under the attached public key) and the
canonical encoder round-trips through the JSON parser, the receipt built
by `generateTrustReceipt` passes `verifyReceiptStructure` with
`valid = true`. -/
theorem C1_round_trip (env : Env) (k : ReceiptKeys) (data : InteractionData)
    (opts : ReceiptOptions) (now : String)
    (hfields : (truthy data.event_id && truthy data.session_id && truthy data.prompt &&
      truthy data.response) = true)
    (hdg : ∀ s, env.sha256Hex s ≠ "")
    (hpayload : env.stableStringify (builderPayload env data now) ≠ "")
    (hpriv : truthy k.privateKeyPem = true)
    (hpub : ∃ pub, k.publicKeyBase64Url = some pub ∧ pub ≠ "")
    (hsign : ∀ m, ∃ sig, env.signCrypto m ((k.privateKeyPem).getD "") = some sig ∧ sig ≠ "" ∧
      env.verifyCrypto m sig ((k.publicKeyBase64Url).getD "") = .ok true)
    (hparse : env.jsonParse (env.stableStringify (builderPayload env data now)) =
      some (builderPayload env data now)) :
    ∃ r res, generateTrustReceipt env (some k) data opts now = .ok r ∧
      verifyReceiptStructure env r = .ok res ∧ res.valid = true := by
  obtain ⟨sig, hsig, hsigne, hver⟩ :=
    hsign (env.sha256Hex (env.stableStringify (builderPayload env data now)))
  obtain ⟨pub, hpubeq, hpubne⟩ := hpub
  rw [hpubeq] at hver
  simp only [Option.getD_some] at hver
  obtain ⟨hpayl, hin, hout, hprevf, hentry, hpubf, hts⟩ :=
    buildReceiptValue_fields env k data opts now
  have hsigf : (buildReceiptValue env k data opts now).ed25519_sig = some sig :=
    buildReceiptValue_sig_some env k data opts now hpriv hsig
  have hed : edShape (buildReceiptValue env k data opts now) = true := by
    show (truthy (buildReceiptValue env k data opts now).payload &&
      truthy (buildReceiptValue env k data opts now).ed25519_sig &&
      truthy (buildReceiptValue env k data opts now).ed25519_pubkey) = true
    rw [hpayl, hsigf, hpubf, hpubeq]
    rw [truthy_some_iff.mpr hpayload, truthy_some_iff.mpr hsigne, truthy_some_iff.mpr hpubne]
    rfl
  have hfe : ∀ x ∈ edRequiredFields (buildReceiptValue env k data opts now),
      truthy x.2 = true := by
    intro x hx
    simp [edRequiredFields] at hx
    rcases hx with rfl | rfl | rfl | rfl
    · rw [hpayl]
      exact truthy_some_iff.mpr hpayload
    · rw [hentry]
      exact truthy_some_iff.mpr (hdg _)
    · rw [hsigf]
      exact truthy_some_iff.mpr hsigne
    · rw [hpubf, hpubeq]
      exact truthy_some_iff.mpr hpubne
  refine ⟨buildReceiptValue env k data opts now, _,
    generateTrustReceipt_ok env k data opts now hfields, verifyEd_eq env _ hed, ?_⟩
  rw [validateCommonFields_valid]
  apply verifyEd25519Receipt_valid env _ _ rfl hfe (builderPayload env data now)
  · simp [hpayl, hparse]
  · simp [hentry]
  · rw [hentry, hsigf, hpubf, hpubeq]
    simpa using hver

/-- The witness signature tag is never empty. -/
theorem sigT_ne_empty (m : String) : ("SIG" ++ m ++ "PUB") ≠ "" := by
  intro h
  have h2 := congrArg String.length h
  rw [String.length_append, String.length_append] at h2
  have h3 : "SIG".length = 3 := rfl
  have h4 : "PUB".length = 3 := rfl
  have h5 : "".length = 0 := rfl
  omega

/-- Witness for C1 at the concrete environment, key pair and
interaction. -/
theorem C1_round_trip_witness :
    ∃ r res, generateTrustReceipt envW (some kW) dataW {} "T" = .ok r ∧
      verifyReceiptStructure envW r = .ok res ∧ res.valid = true :=
  C1_round_trip envW kW dataW {} "T" (by decide) dgT_ne_empty (by decide) (by decide)
    ⟨"PUB", rfl, by decide⟩
    (fun m => ⟨"SIG" ++ m ++ "PUB", rfl, sigT_ne_empty m,
      show Except.ok (("SIG" ++ m ++ "PUB") == "SIG" ++ m ++ "PUB") = Except.ok true by
        rw [beq_self_eq_true]⟩)
    (by decide)
